import Mathlib

/-!
A shallow embedding of the Egg & Geese v2 execution gateway (Node/TypeScript)
and of the frontend's activity-merge logic, together with proofs about the
behaviour the specification describes.

Embedded source files:
* the bridge router (`createBridgeRouter`, endpoints POST /api/execute and
  POST /api/metrics),
* the three platform agents (TwitterAgent, RedditAgent, InstagramAgent) with
  their URL-id extraction helpers,
* the heartbeat daemon (`startHeartbeat`, `stopHeartbeat`, `notifyOrchestrator`),
* the dashboard/activity pages' snapshot-plus-live merge handler,
* the pipeline stage table (`PIPELINE_STAGES`) of the campaign detail page.

Side effects are made explicit: the current `Date.now()` value, the sequence of
`Math.floor(Math.random() * b)` draws, and the fresh uuid are parameters; the
HTTP requests a function issues and the adapter calls the router makes are
returned as explicit traces.
-/

/- ### JS number-to-string conversion (template literals) -/

/-- The decimal digit character for a digit value (values above 9 do not occur). -/
def digitChar : Nat → Char
  | 0 => '0'
  | 1 => '1'
  | 2 => '2'
  | 3 => '3'
  | 4 => '4'
  | 5 => '5'
  | 6 => '6'
  | 7 => '7'
  | 8 => '8'
  | _ => '9'

/-- Decimal digits of a natural number, least significant first, with explicit
fuel so that the definition is structurally recursive. -/
def natDigitsRevAux : Nat → Nat → List Nat
  | 0, _ => []
  | fuel + 1, n => if n < 10 then [n] else n % 10 :: natDigitsRevAux fuel (n / 10)

/-- Decimal digits of a natural number, least significant first. -/
def natDigitsRev (n : Nat) : List Nat := natDigitsRevAux (n + 1) n

/-- The decimal rendering of a natural number, as a JS template literal renders
`Date.now()` and other integers. -/
def natRepr (n : Nat) : String := String.mk (((natDigitsRev n).map digitChar).reverse)

/-- JS `a || b` on strings: the empty string is falsy and falls through. -/
def jsOrString (s fallback : String) : String := if s = "" then fallback else s

/-- JS `x || y` where `x` is a possibly-undefined string (`undefined` and the
empty string both fall through). -/
def jsOrOpt (s : Option String) (fallback : String) : String :=
  match s with
  | some v => jsOrString v fallback
  | none => fallback

/- ### URL-id extraction (the agents' regexes) -/

/-- Greedy run of decimal digits, embedding a leading regex `\d+`. -/
def digitRun : List Char → List Char
  | [] => []
  | c :: cs => if c.isDigit then c :: digitRun cs else []

/-- Greedy run of `[a-z0-9]` characters under the `i` flag. -/
def alnumRun : List Char → List Char
  | [] => []
  | c :: cs => if c.isAlphanum then c :: alnumRun cs else []

/-- Greedy run of `[A-Za-z0-9_-]` characters. -/
def shortcodeRun : List Char → List Char
  | [] => []
  | c :: cs => if c.isAlphanum || c == '_' || c == '-' then c :: shortcodeRun cs else []

/-- Whether a character list starts with a decimal digit. -/
def headDigit : List Char → Bool
  | [] => false
  | c :: _ => c.isDigit

/-- Whether a character list starts with an `[a-z0-9]` character (`i` flag). -/
def headAlnum : List Char → Bool
  | [] => false
  | c :: _ => c.isAlphanum

/-- Whether a character list starts with an `[A-Za-z0-9_-]` character. -/
def headShortcodeChar : List Char → Bool
  | [] => false
  | c :: _ => c.isAlphanum || c == '_' || c == '-'

/-- Leftmost match of `/status\/(\d+)/`: the first capture group, if the
pattern matches anywhere in the input. -/
def findTweetId : List Char → Option (List Char)
  | [] => none
  | c :: cs =>
      if (c :: cs).take 7 = ("status/").data ∧ headDigit ((c :: cs).drop 7) then
        some (digitRun ((c :: cs).drop 7))
      else
        findTweetId cs

/-- `extractTweetId` from the Twitter agent: the capture of
`/status\/(\d+)/`, or the empty string when the URL does not match. -/
def extractTweetId (url : String) : String :=
  match findTweetId url.data with
  | some ds => String.mk ds
  | none => ""

/-- Leftmost match of `/comments\/([a-z0-9]+)/i`: the first capture group. -/
def findRedditId : List Char → Option (List Char)
  | [] => none
  | c :: cs =>
      if ((c :: cs).take 9).map Char.toLower = ("comments/").data
          ∧ headAlnum ((c :: cs).drop 9) then
        some (alnumRun ((c :: cs).drop 9))
      else
        findRedditId cs

/-- `extractRedditId` from the Reddit agent: the capture of
`/comments\/([a-z0-9]+)/i`, or the empty string when the URL does not match. -/
def extractRedditId (url : String) : String :=
  match findRedditId url.data with
  | some ds => String.mk ds
  | none => ""

/-- Leftmost match of `/\/(p|reel)\/([A-Za-z0-9_-]+)/`: the second capture
group (the shortcode). The `p` alternative is tried before `reel` at each
position, mirroring regex alternation order. -/
def findIgShortcode : List Char → Option (List Char)
  | [] => none
  | c :: cs =>
      if (c :: cs).take 3 = ("/p/").data ∧ headShortcodeChar ((c :: cs).drop 3) then
        some (shortcodeRun ((c :: cs).drop 3))
      else if (c :: cs).take 6 = ("/reel/").data ∧ headShortcodeChar ((c :: cs).drop 6) then
        some (shortcodeRun ((c :: cs).drop 6))
      else
        findIgShortcode cs

/-- `extractIgShortcode` from the Instagram agent: the shortcode capture of
`/\/(p|reel)\/([A-Za-z0-9_-]+)/`, or the empty string when the URL does not
match. -/
def extractIgShortcode (url : String) : String :=
  match findIgShortcode url.data with
  | some ds => String.mk ds
  | none => ""

/- ### Platform agents -/

/-- The object an agent's `execute` resolves with. `id` is the simulated
platform-assigned id; `ref` embeds the per-action reference field of the
source object (`tweet_id`, `reply_to`, `post_id` or `shortcode`). -/
structure ExecResult where
  id : String
  ref : String
  action : String
  content : String
  status : String
deriving DecidableEq, Repr

/-- `TwitterAgent.execute`, with `Date.now()` passed in as `now`. The switch
over the action either resolves with a simulated result or throws
(`Except.error`) on an unsupported action. -/
def TwitterAgent.execute (now : Nat) (action postUrl content : String)
    (parentCommentId : Option String) : Except String ExecResult :=
  let tweetId := extractTweetId postUrl
  if action = "comment" then
    .ok ⟨("tw_reply_") ++ natRepr now, tweetId, "reply", content, "simulated"⟩
  else if action = "reply" then
    .ok ⟨("tw_thread_") ++ natRepr now, jsOrOpt parentCommentId tweetId, "reply", content,
      "simulated"⟩
  else if action = "repost" then
    .ok ⟨("tw_qt_") ++ natRepr now, tweetId, "quote_retweet", content, "simulated"⟩
  else
    .error (("Unsupported action: ") ++ action)

/-- `RedditAgent.execute`, with `Date.now()` passed in as `now`. -/
def RedditAgent.execute (now : Nat) (action postUrl content : String)
    (parentCommentId : Option String) : Except String ExecResult :=
  let postId := extractRedditId postUrl
  if action = "comment" then
    .ok ⟨("rd_comment_") ++ natRepr now, postId, "comment", content, "simulated"⟩
  else if action = "reply" then
    .ok ⟨("rd_reply_") ++ natRepr now, jsOrOpt parentCommentId postId, "reply", content,
      "simulated"⟩
  else if action = "repost" then
    .ok ⟨("rd_xpost_") ++ natRepr now, postId, "crosspost", content, "simulated"⟩
  else
    .error (("Unsupported action: ") ++ action)

/-- `InstagramAgent.execute`, with `Date.now()` passed in as `now`. -/
def InstagramAgent.execute (now : Nat) (action postUrl content : String)
    (parentCommentId : Option String) : Except String ExecResult :=
  let shortcode := extractIgShortcode postUrl
  if action = "comment" then
    .ok ⟨("ig_comment_") ++ natRepr now, shortcode, "comment", content, "simulated"⟩
  else if action = "reply" then
    .ok ⟨("ig_reply_") ++ natRepr now, jsOrOpt parentCommentId shortcode, "reply", content,
      "simulated"⟩
  else if action = "repost" then
    .ok ⟨("ig_story_") ++ natRepr now, shortcode, "story_share", content, "simulated"⟩
  else
    .error (("Unsupported action: ") ++ action)

/-- One collected metrics record, as built by an agent's `collectMetrics`. -/
structure PostMetrics where
  post_id : String
  impressions : Nat
  likes : Nat
  replies : Nat
  reposts : Nat
  clicks : Nat
  follower_delta : Int
  status : String
deriving DecidableEq, Repr

/-- `TwitterAgent.collectMetrics`. The i-th id consumes six
`Math.floor(Math.random() * b)` draws; `r k` is the value of the k-th draw. -/
def TwitterAgent.collectMetrics (r : Nat → Nat) (postIds : List String) : List PostMetrics :=
  postIds.enum.map fun p =>
    { post_id := p.2
      impressions := r (6 * p.1)
      likes := r (6 * p.1 + 1)
      replies := r (6 * p.1 + 2)
      reposts := r (6 * p.1 + 3)
      clicks := r (6 * p.1 + 4)
      follower_delta := (r (6 * p.1 + 5) : Int) - 2
      status := "simulated" }

/-- `RedditAgent.collectMetrics`: four draws per id; clicks and follower delta
are hard-coded zero. -/
def RedditAgent.collectMetrics (r : Nat → Nat) (postIds : List String) : List PostMetrics :=
  postIds.enum.map fun p =>
    { post_id := p.2
      impressions := r (4 * p.1)
      likes := r (4 * p.1 + 1)
      replies := r (4 * p.1 + 2)
      reposts := r (4 * p.1 + 3)
      clicks := 0
      follower_delta := 0
      status := "simulated" }

/-- `InstagramAgent.collectMetrics`: six draws per id. -/
def InstagramAgent.collectMetrics (r : Nat → Nat) (postIds : List String) : List PostMetrics :=
  postIds.enum.map fun p =>
    { post_id := p.2
      impressions := r (6 * p.1)
      likes := r (6 * p.1 + 1)
      replies := r (6 * p.1 + 2)
      reposts := r (6 * p.1 + 3)
      clicks := r (6 * p.1 + 4)
      follower_delta := (r (6 * p.1 + 5) : Int) - 3
      status := "simulated" }

/- ### Bridge router (createBridgeRouter: POST /api/execute, POST /api/metrics) -/

/-- The platforms with a registered agent in `platformAgents`. -/
inductive Platform where
  | twitter
  | reddit
  | instagram
deriving DecidableEq, Repr

/-- Lookup in the `platformAgents` registry: `twitter`, `reddit` and
`instagram` are the only registered keys. -/
def platformForName (s : String) : Option Platform :=
  if s = "twitter" then some .twitter
  else if s = "reddit" then some .reddit
  else if s = "instagram" then some .instagram
  else none

/-- Dispatch `agent.execute` for a resolved platform. -/
def agentExecute (p : Platform) (now : Nat) (action postUrl content : String)
    (parentCommentId : Option String) : Except String ExecResult :=
  match p with
  | .twitter => TwitterAgent.execute now action postUrl content parentCommentId
  | .reddit => RedditAgent.execute now action postUrl content parentCommentId
  | .instagram => InstagramAgent.execute now action postUrl content parentCommentId

/-- Dispatch `agent.collectMetrics` for a resolved platform. -/
def agentCollectMetrics (p : Platform) (r : Nat → Nat) (postIds : List String) :
    List PostMetrics :=
  match p with
  | .twitter => TwitterAgent.collectMetrics r postIds
  | .reddit => RedditAgent.collectMetrics r postIds
  | .instagram => InstagramAgent.collectMetrics r postIds

/-- The body of a POST /api/execute request. -/
structure ExecuteRequest where
  action : String
  platform : String
  post_url : String
  content : String
  parent_comment_id : Option String
deriving DecidableEq, Repr

/-- The response of POST /api/execute: a 400 with an error message, a 200
success body, or a 500 error body. -/
inductive ExecuteResponse where
  | badRequest (error : String)
  | success (platform_post_id : String) (platform : String) (action : String)
      (result : ExecResult)
  | failure (error : String) (platform : String) (action : String)
deriving DecidableEq, Repr

/-- The HTTP status code the router sends with each response shape. -/
def ExecuteResponse.statusCode : ExecuteResponse → Nat
  | .badRequest _ => 400
  | .success _ _ _ _ => 200
  | .failure _ _ _ => 500

/-- One invocation of a platform agent's `execute`. -/
structure AdapterCall where
  platform : Platform
  action : String
deriving DecidableEq, Repr

/-- The POST /api/execute handler. Returns the response together with the
trace of adapter invocations the handler performed. `now` is `Date.now()` at
the moment the agent builds its simulated id and `uuid` is the `uuidv4()`
fallback the handler would use if the adapter result carried no id. -/
def bridgeExecute (now : Nat) (uuid : String) (req : ExecuteRequest) :
    ExecuteResponse × List AdapterCall :=
  match platformForName req.platform with
  | none => (.badRequest (("Unsupported platform: ") ++ req.platform), [])
  | some p =>
      match agentExecute p now req.action req.post_url req.content req.parent_comment_id with
      | .ok result =>
          (.success (jsOrString result.id uuid) req.platform req.action result,
            [⟨p, req.action⟩])
      | .error e => (.failure e req.platform req.action, [⟨p, req.action⟩])

/-- The body of a POST /api/metrics request. -/
structure MetricsRequest where
  platform : String
  post_ids : List String
deriving DecidableEq, Repr

/-- The response of POST /api/metrics. -/
inductive MetricsResponse where
  | badRequest (error : String)
  | ok (metrics : List PostMetrics) (platform : String)
deriving DecidableEq, Repr

/-- The HTTP status code the router sends with each metrics response shape. -/
def MetricsResponse.statusCode : MetricsResponse → Nat
  | .badRequest _ => 400
  | .ok _ _ => 200

/-- The POST /api/metrics handler, with the trace of agents whose
`collectMetrics` was invoked. -/
def bridgeMetrics (r : Nat → Nat) (req : MetricsRequest) :
    MetricsResponse × List Platform :=
  match platformForName req.platform with
  | none => (.badRequest (("Unsupported platform: ") ++ req.platform), [])
  | some p => (.ok (agentCollectMetrics p r req.post_ids) req.platform, [p])

/- ### Heartbeat daemon -/

/-- A `cron.ScheduledTask` handle: a fresh identity, the cron expression it
was scheduled with, and whether `stop()` has been called on it. -/
structure TaskHandle where
  taskId : Nat
  cronExpr : String
  stopped : Bool
deriving DecidableEq, Repr

/-- The heartbeat module's state: the module-level `heartbeatTask` variable,
plus (for reasoning about timer creation) the list of every task ever
scheduled and a counter supplying fresh task identities. -/
structure HeartbeatState where
  heartbeatTask : Option TaskHandle
  timers : List TaskHandle
  fresh : Nat
deriving DecidableEq, Repr

/-- The heartbeat module's cron expression `*/N * * * *`. -/
def cronExprFor (intervalMinutes : Nat) : String :=
  ("*/") ++ natRepr intervalMinutes ++ (" * * * *")

/-- `startHeartbeat`: a no-op when `heartbeatTask` is already set, otherwise
schedules one new cron task and stores its handle. -/
def startHeartbeat (intervalMinutes : Nat) (s : HeartbeatState) : HeartbeatState :=
  match s.heartbeatTask with
  | some _ => s
  | none =>
      let h : TaskHandle := ⟨s.fresh, cronExprFor intervalMinutes, false⟩
      ⟨some h, s.timers ++ [h], s.fresh + 1⟩

/-- `stopHeartbeat`: stops the scheduled task (marking it stopped) and resets
`heartbeatTask` to null; a no-op when no task is scheduled. -/
def stopHeartbeat (s : HeartbeatState) : HeartbeatState :=
  match s.heartbeatTask with
  | some h =>
      ⟨none,
        s.timers.map fun t => if t.taskId = h.taskId then ⟨t.taskId, t.cronExpr, true⟩ else t,
        s.fresh⟩
  | none => s

/-- An HTTP request issued by the gateway process. -/
structure HttpRequest where
  method : String
  path : String
deriving DecidableEq, Repr

/-- The requests `notifyOrchestrator` issues: a single
`fetch(orchestratorUrl + "/api/health")`, whatever the response. -/
def notifyOrchestratorRequests : List HttpRequest := [⟨"GET", "/api/health"⟩]

/-- The outward-visible requests of one heartbeat cron tick. The callback
only logs and awaits `notifyOrchestrator`; it receives no campaign data, so
the result is independent of the set of active campaigns (passed here to make
that independence statable). -/
def heartbeatTickRequests (activeCampaigns : List String) : List HttpRequest :=
  notifyOrchestratorRequests

/- ### Frontend: snapshot-plus-live activity merge -/

/-- An activity item as handled by the dashboard and activity pages; the merge
handler only inspects `id`. -/
structure ActivityItem where
  id : String
  content : String
deriving DecidableEq, Repr

/-- The `merged.filter` pass with its mutable `seen : Set<string>`: keeps an
item iff its id has not been seen yet. -/
def filterSeen : List ActivityItem → List String → List ActivityItem
  | [], _ => []
  | e :: rest, seen =>
      if e.id ∈ seen then filterSeen rest seen
      else e :: filterSeen rest (e.id :: seen)

/-- The heartbeat-branch handler of the dashboard and activity pages:
`[...incoming, ...prev]`, deduplicated by id keeping first occurrences, then
truncated with `slice(0, limit)` (limit 20 on the dashboard, 100 on the
activity page). -/
def mergeActivity (incoming prev : List ActivityItem) (limit : Nat) : List ActivityItem :=
  (filterSeen (incoming ++ prev) []).take limit

/- ### Campaign pipeline (orchestrator model) -/

/-- Pipeline stage names, the five canonical stages plus the two terminal
markers of `PipelineStatus.stage`. -/
inductive Stage where
  | intent
  | scouting
  | vision
  | strategy
  | engagement
  | completed
  | error
deriving DecidableEq, Repr

/-- The canonical stage order, from the frontend's `PIPELINE_STAGES` table
(keys `intent`, `scouting`, `vision`, `strategy`, `engagement`). -/
def PIPELINE_STAGES : List Stage := [.intent, .scouting, .vision, .strategy, .engagement]

/-- A campaign's pipeline status: current stage, ordered list of completed
stage names, optional error detail. -/
structure PipelineStatus where
  stage : Stage
  completed : List Stage
  errorDetail : Option String
deriving DecidableEq, Repr

/-- Modelled from the spec: the orchestrator's `runCycle` (absent from the
gateway/frontend sources) advances through the pending stages in order; each
persisted `PipelineStatus` records the stage being entered and the stages
completed so far; on a stage failure the status becomes `error` with a detail
and the cycle stops; after the last stage succeeds the status becomes
`completed`. `oc s` tells whether stage `s`'s collaborator call succeeds.
The returned list is the sequence of persisted statuses. -/
def runStages (oc : Stage → Bool) : List Stage → List Stage → List PipelineStatus
  | [], comp => [⟨.completed, comp, none⟩]
  | s :: rest, comp =>
      ⟨s, comp, none⟩ ::
        (if oc s then runStages oc rest (comp ++ [s])
         else [⟨.error, comp, some ("stage failed")⟩])

/-- Modelled from the spec: a full `runCycle` from a fresh campaign, as the
sequence of persisted pipeline statuses. -/
def runCycleTrace (oc : Stage → Bool) : List PipelineStatus :=
  runStages oc PIPELINE_STAGES []

/-- The invariant of claim C7: `completed` is duplicate-free and a prefix of
the canonical order, and `stage` is the next canonical stage after the last
completed one, unless it is the `error` or `completed` marker. -/
def pipelineInv (p : PipelineStatus) : Prop :=
  p.completed.Nodup ∧
  p.completed = PIPELINE_STAGES.take p.completed.length ∧
  (p.stage = .error ∨ p.stage = .completed ∨
    PIPELINE_STAGES.get? p.completed.length = some p.stage)

/-- Whether an agent's `execute` resolved (rather than threw). -/
def execOk : Except String ExecResult → Bool
  | .ok _ => true
  | .error _ => false

/-- The numeric value of a least-significant-first digit list (used to read a
decimal rendering back). -/
def ofDigitsRev : List Nat → Nat
  | [] => 0
  | d :: ds => d + 10 * ofDigitsRev ds

/- ### Theorems -/

/-- Claim C1: an execute request whose platform is not one of the registered
adapters (twitter, reddit, instagram) gets an immediate 400 response carrying
an Unsupported-platform message, with no adapter invoked (empty call trace, so
in particular no retry) and no success response; the same check governs the
metrics endpoint. -/
theorem unsupported_platform_rejected (now : Nat) (uuid : String) (req : ExecuteRequest)
    (r : Nat → Nat) (mreq : MetricsRequest)
    (h1 : req.platform ≠ "twitter" ∧ req.platform ≠ "reddit" ∧ req.platform ≠ "instagram")
    (h2 : mreq.platform ≠ "twitter" ∧ mreq.platform ≠ "reddit" ∧ mreq.platform ≠ "instagram") :
    bridgeExecute now uuid req =
      (.badRequest (("Unsupported platform: ") ++ req.platform), []) ∧
    (bridgeExecute now uuid req).1.statusCode = 400 ∧
    bridgeMetrics r mreq =
      (.badRequest (("Unsupported platform: ") ++ mreq.platform), []) ∧
    (bridgeMetrics r mreq).1.statusCode = 400 := by
  obtain ⟨a1, a2, a3⟩ := h1
  obtain ⟨b1, b2, b3⟩ := h2
  have hp : platformForName req.platform = none := by
    unfold platformForName
    rw [if_neg a1, if_neg a2, if_neg a3]
  have hq : platformForName mreq.platform = none := by
    unfold platformForName
    rw [if_neg b1, if_neg b2, if_neg b3]
  refine ⟨?_, ?_, ?_, ?_⟩ <;>
    simp [bridgeExecute, bridgeMetrics, hp, hq, ExecuteResponse.statusCode,
      MetricsResponse.statusCode]

/-- Claim C1, witness: the platform string mastodon is rejected. -/
theorem unsupported_platform_rejected_witness :
    (("mastodon" : String) ≠ "twitter" ∧ ("mastodon" : String) ≠ "reddit" ∧
      ("mastodon" : String) ≠ "instagram") ∧
    (bridgeExecute 0 ("uuid-0") ⟨"comment", "mastodon", "https://m.social/x", "hello", none⟩ =
      (.badRequest (("Unsupported platform: ") ++ "mastodon"), []) ∧
    (bridgeExecute 0 ("uuid-0")
        ⟨"comment", "mastodon", "https://m.social/x", "hello", none⟩).1.statusCode = 400 ∧
    bridgeMetrics (fun _ => 0) ⟨"mastodon", ["p1"]⟩ =
      (.badRequest (("Unsupported platform: ") ++ "mastodon"), []) ∧
    (bridgeMetrics (fun _ => 0) ⟨"mastodon", ["p1"]⟩).1.statusCode = 400) :=
  ⟨by decide,
    unsupported_platform_rejected 0 ("uuid-0")
      ⟨"comment", "mastodon", "https://m.social/x", "hello", none⟩ (fun _ => 0)
      ⟨"mastodon", ["p1"]⟩ (by decide) (by decide)⟩

/-- Claim C2: when the adapter call for a supported platform throws, the
handler responds with the single status-error (500) result carrying the error
message, the platform and the action, and the trace shows exactly one adapter
invocation (no retry). -/
theorem adapter_error_surfaced (now : Nat) (uuid : String) (req : ExecuteRequest)
    (p : Platform) (e : String)
    (hp : platformForName req.platform = some p)
    (he : agentExecute p now req.action req.post_url req.content req.parent_comment_id =
      .error e) :
    bridgeExecute now uuid req = (.failure e req.platform req.action, [⟨p, req.action⟩]) ∧
    (bridgeExecute now uuid req).1.statusCode = 500 := by
  constructor <;> simp [bridgeExecute, hp, he, ExecuteResponse.statusCode]

/-- Claim C2, witness: a `like` action makes the Twitter adapter throw, and
the bridge surfaces it as one 500 error response after exactly one call. -/
theorem adapter_error_surfaced_witness :
    platformForName ("twitter") = some .twitter ∧
    agentExecute .twitter 5 ("like") ("https://x.com/a/status/7") ("hi") none =
      .error (("Unsupported action: ") ++ "like") ∧
    bridgeExecute 5 ("uuid-1") ⟨"like", "twitter", "https://x.com/a/status/7", "hi", none⟩ =
      (.failure (("Unsupported action: ") ++ "like") ("twitter") ("like"),
        [⟨.twitter, "like"⟩]) ∧
    (bridgeExecute 5 ("uuid-1")
        ⟨"like", "twitter", "https://x.com/a/status/7", "hi", none⟩).1.statusCode = 500 :=
  ⟨rfl, rfl,
    adapter_error_surfaced 5 ("uuid-1")
      ⟨"like", "twitter", "https://x.com/a/status/7", "hi", none⟩ .twitter
      (("Unsupported action: ") ++ "like") rfl rfl⟩

/-- Claim C5: calling startHeartbeat while a heartbeat task is already
scheduled leaves the module state unchanged: the existing handle is kept and
no new timer is created. -/
theorem startHeartbeat_running_noop (m : Nat) (s : HeartbeatState) (h : TaskHandle)
    (hh : s.heartbeatTask = some h) : startHeartbeat m s = s := by
  simp [startHeartbeat, hh]

/-- Claim C5, witness: a second start against a scheduled task is a no-op. -/
theorem startHeartbeat_running_noop_witness :
    ((⟨some ⟨0, ("c"), false⟩, [⟨0, ("c"), false⟩], 1⟩ : HeartbeatState).heartbeatTask =
      some ⟨0, ("c"), false⟩) ∧
    startHeartbeat 30 ⟨some ⟨0, ("c"), false⟩, [⟨0, ("c"), false⟩], 1⟩ =
      ⟨some ⟨0, ("c"), false⟩, [⟨0, ("c"), false⟩], 1⟩ :=
  ⟨rfl, startHeartbeat_running_noop 30 ⟨some ⟨0, ("c"), false⟩, [⟨0, ("c"), false⟩], 1⟩
    ⟨0, ("c"), false⟩ rfl⟩

/-- Claim C10: from a not-running state, start followed by stop returns the
handle to null; stop on a not-running state is a no-op; and a subsequent
start schedules exactly one fresh timer with the requested cron expression,
exactly as from the initial state. -/
theorem heartbeat_start_stop_roundtrip (m m2 : Nat) (s : HeartbeatState)
    (h : s.heartbeatTask = none) :
    (stopHeartbeat (startHeartbeat m s)).heartbeatTask = none ∧
    stopHeartbeat s = s ∧
    (startHeartbeat m2 (stopHeartbeat (startHeartbeat m s))).heartbeatTask =
      some ⟨(stopHeartbeat (startHeartbeat m s)).fresh, cronExprFor m2, false⟩ ∧
    (startHeartbeat m2 (stopHeartbeat (startHeartbeat m s))).timers =
      (stopHeartbeat (startHeartbeat m s)).timers ++
        [⟨(stopHeartbeat (startHeartbeat m s)).fresh, cronExprFor m2, false⟩] := by
  cases s with
  | mk task timers fresh =>
      simp only [HeartbeatState.heartbeatTask] at h
      subst h
      refine ⟨?_, ?_, ?_, ?_⟩ <;> simp [startHeartbeat, stopHeartbeat]

/-- Claim C10, witness: the round trip at a concrete initial state. -/
theorem heartbeat_start_stop_roundtrip_witness :
    ((⟨none, [], 0⟩ : HeartbeatState).heartbeatTask = none) ∧
    ((stopHeartbeat (startHeartbeat 30 ⟨none, [], 0⟩)).heartbeatTask = none ∧
    stopHeartbeat (⟨none, [], 0⟩ : HeartbeatState) = ⟨none, [], 0⟩ ∧
    (startHeartbeat 15 (stopHeartbeat (startHeartbeat 30 ⟨none, [], 0⟩))).heartbeatTask =
      some ⟨(stopHeartbeat (startHeartbeat 30 ⟨none, [], 0⟩)).fresh, cronExprFor 15, false⟩ ∧
    (startHeartbeat 15 (stopHeartbeat (startHeartbeat 30 ⟨none, [], 0⟩))).timers =
      (stopHeartbeat (startHeartbeat 30 ⟨none, [], 0⟩)).timers ++
        [⟨(stopHeartbeat (startHeartbeat 30 ⟨none, [], 0⟩)).fresh, cronExprFor 15, false⟩]) :=
  ⟨rfl, heartbeat_start_stop_roundtrip 30 15 ⟨none, [], 0⟩ rfl⟩

/-- Claim C4 (supporting theorem for the code bug): a heartbeat tick issues
only the GET /api/health liveness probe, for any set of active campaigns; it
never requests a metrics collection or a learning update. -/
theorem heartbeat_tick_only_health_check (activeCampaigns : List String) :
    heartbeatTickRequests activeCampaigns = [⟨"GET", "/api/health"⟩] := rfl

/-- Claim C3 (amended): every agent's collectMetrics is total and returns
exactly one metrics record per requested id, in order, whatever the ids and
the random draws; no id makes the batch fail. -/
theorem collectMetrics_one_result_per_id (r : Nat → Nat) (ids : List String) :
    (TwitterAgent.collectMetrics r ids).map (fun m => m.post_id) = ids ∧
    (RedditAgent.collectMetrics r ids).map (fun m => m.post_id) = ids ∧
    (InstagramAgent.collectMetrics r ids).map (fun m => m.post_id) = ids := by
  refine ⟨?_, ?_, ?_⟩ <;>
    simp only [TwitterAgent.collectMetrics, RedditAgent.collectMetrics,
      InstagramAgent.collectMetrics, List.map_map] <;>
    exact List.enum_map_snd ids

/-- Claim C3, counterexample to the zeroed-metrics part: an id that no real
platform could resolve still receives whatever the random draws produce
(here 5000 impressions), not zeroed metrics. -/
theorem collectMetrics_not_zeroed_counterexample :
    (TwitterAgent.collectMetrics (fun _ => 5000) [("@@not-a-valid-post-id@@")]).map
      (fun m => m.impressions) = [5000] ∧ (5000 : Nat) ≠ 0 := by
  decide

/-- Every item kept by the filter pass was unseen, and is the first item of
the input carrying its id. -/
theorem filterSeen_mem (l : List ActivityItem) :
    ∀ (seen : List String) (e : ActivityItem), e ∈ filterSeen l seen →
      e.id ∉ seen ∧ l.find? (fun x => x.id == e.id) = some e := by
  induction l with
  | nil =>
      intro seen e h
      simp [filterSeen] at h
  | cons a rest ih =>
      intro seen e h
      by_cases ha : a.id ∈ seen
      · rw [filterSeen, if_pos ha] at h
        obtain ⟨hn, hf⟩ := ih seen e h
        have hne : (a.id == e.id) = false := by
          rw [beq_eq_false_iff_ne]
          intro hcontra
          exact hn (hcontra ▸ ha)
        exact ⟨hn, by simp [List.find?, hne, hf]⟩
      · rw [filterSeen, if_neg ha] at h
        rcases List.mem_cons.mp h with he | hrest
        · subst he
          exact ⟨ha, by simp [List.find?]⟩
        · obtain ⟨hn, hf⟩ := ih (a.id :: seen) e hrest
          have hne2 : e.id ≠ a.id := fun hh => hn (by rw [hh]; exact List.mem_cons_self _ _)
          have hne : (a.id == e.id) = false := by
            rw [beq_eq_false_iff_ne]
            exact fun hh => hne2 hh.symm
          exact ⟨fun hs => hn (List.mem_cons_of_mem _ hs), by simp [List.find?, hne, hf]⟩

/-- The filter pass emits pairwise distinct ids. -/
theorem filterSeen_nodup (l : List ActivityItem) :
    ∀ seen : List String, ((filterSeen l seen).map (fun e => e.id)).Nodup := by
  induction l with
  | nil => intro seen; simp [filterSeen]
  | cons a rest ih =>
      intro seen
      by_cases ha : a.id ∈ seen
      · rw [filterSeen, if_pos ha]
        exact ih seen
      · rw [filterSeen, if_neg ha]
        simp only [List.map_cons, List.nodup_cons]
        refine ⟨?_, ih (a.id :: seen)⟩
        intro hmem
        rcases List.mem_map.mp hmem with ⟨e, he, hid⟩
        have h2 := (filterSeen_mem rest (a.id :: seen) e he).1
        rw [hid] at h2
        exact h2 (List.mem_cons_self _ _)

/-- Claim C8: merging an incoming live batch with the previous snapshot
deduplicates by id — the merged list carries each event id at most once, and
every kept item is the first (newest-first) occurrence of its id in
`incoming ++ prev`. -/
theorem mergeActivity_dedup (incoming prev : List ActivityItem) (limit : Nat) :
    ((mergeActivity incoming prev limit).map (fun e => e.id)).Nodup ∧
    ∀ e ∈ mergeActivity incoming prev limit,
      (incoming ++ prev).find? (fun x => x.id == e.id) = some e := by
  constructor
  · have hn := filterSeen_nodup (incoming ++ prev) []
    have hsub : List.Sublist
        (((filterSeen (incoming ++ prev) []).take limit).map (fun e => e.id))
        ((filterSeen (incoming ++ prev) []).map (fun e => e.id)) :=
      (List.take_sublist _ _).map _
    exact List.Nodup.sublist hsub hn
  · intro e he
    have hmem : e ∈ filterSeen (incoming ++ prev) [] := List.take_subset _ _ he
    exact (filterSeen_mem (incoming ++ prev) [] e hmem).2

/-- Claim C8, witness: a snapshot item with a duplicated id is dropped in
favour of the incoming (newer) occurrence. -/
theorem mergeActivity_dedup_witness :
    ((⟨"a", "x"⟩ : ActivityItem) ∈
      mergeActivity [⟨"a", "x"⟩] [⟨"a", "y"⟩, ⟨"b", "z"⟩] 20) ∧
    ((mergeActivity [⟨"a", "x"⟩] [⟨"a", "y"⟩, ⟨"b", "z"⟩] 20).map (fun e => e.id)).Nodup ∧
    ([⟨"a", "x"⟩] ++ [⟨"a", "y"⟩, ⟨"b", "z"⟩] : List ActivityItem).find?
      (fun x => x.id == (⟨"a", "x"⟩ : ActivityItem).id) = some ⟨"a", "x"⟩ :=
  ⟨by decide,
    (mergeActivity_dedup [⟨"a", "x"⟩] [⟨"a", "y"⟩, ⟨"b", "z"⟩] 20).1,
    (mergeActivity_dedup [⟨"a", "x"⟩] [⟨"a", "y"⟩, ⟨"b", "z"⟩] 20).2 ⟨"a", "x"⟩ (by decide)⟩

/-- Every status persisted by a cycle satisfies the pipeline invariant,
provided the completed stages so far plus the pending stages make up the
canonical order. -/
theorem runStages_inv (oc : Stage → Bool) :
    ∀ (pending comp : List Stage), comp ++ pending = PIPELINE_STAGES →
      ∀ p ∈ runStages oc pending comp, pipelineInv p := by
  intro pending
  induction pending with
  | nil =>
      intro comp hc p hp
      simp only [runStages, List.mem_singleton] at hp
      subst hp
      rw [List.append_nil] at hc
      subst hc
      exact ⟨by decide, by decide, Or.inr (Or.inl rfl)⟩
  | cons s rest ih =>
      intro comp hc p hp
      have hcsub : List.Sublist comp PIPELINE_STAGES := by
        rw [← hc]
        exact List.sublist_append_left _ _
      have hnod : comp.Nodup := List.Nodup.sublist hcsub (by decide)
      have htake : comp = PIPELINE_STAGES.take comp.length := by
        have ht := List.take_left comp (s :: rest)
        rw [← hc, ht]
      have hget : PIPELINE_STAGES.get? comp.length = some s := by
        rw [← hc, List.get?_append_right (le_refl _)]
        simp
      rw [runStages] at hp
      rcases List.mem_cons.mp hp with h1 | h2
      · subst h1
        exact ⟨hnod, htake, Or.inr (Or.inr hget)⟩
      · by_cases hoc : oc s
        · rw [if_pos hoc] at h2
          refine ih (comp ++ [s]) ?_ p h2
          rw [List.append_assoc, List.singleton_append]
          exact hc
        · rw [if_neg hoc] at h2
          simp only [List.mem_singleton] at h2
          subst h2
          exact ⟨hnod, htake, Or.inl rfl⟩

/-- Claim C7: every pipeline status a cycle persists has a duplicate-free
`completed` that is a prefix of the canonical stage order, and a `stage` that
is the next canonical stage unless it is the error or completed marker. -/
theorem pipelineStatus_invariant (oc : Stage → Bool) (p : PipelineStatus)
    (hp : p ∈ runCycleTrace oc) : pipelineInv p :=
  runStages_inv oc PIPELINE_STAGES [] rfl p hp

/-- Claim C7, witness: the status entering the scouting stage of an
all-successful cycle satisfies the invariant. -/
theorem pipelineStatus_invariant_witness :
    ((⟨.scouting, [.intent], none⟩ : PipelineStatus) ∈ runCycleTrace (fun _ => true)) ∧
    pipelineInv ⟨.scouting, [.intent], none⟩ :=
  ⟨by decide,
    pipelineStatus_invariant (fun _ => true) ⟨.scouting, [.intent], none⟩ (by decide)⟩

/-- Claim C9: for each platform agent and each of the actions comment, reply
and repost, execute resolves for every URL (and parent id); and whenever the
platform's URL pattern fails to match, the extracted post id falls back to
the empty string. -/
theorem agents_execute_total (now : Nat) (action url content : String)
    (parent : Option String)
    (h : action = "comment" ∨ action = "reply" ∨ action = "repost") :
    execOk (TwitterAgent.execute now action url content parent) = true ∧
    execOk (RedditAgent.execute now action url content parent) = true ∧
    execOk (InstagramAgent.execute now action url content parent) = true ∧
    (findTweetId url.data = none → extractTweetId url = "") ∧
    (findRedditId url.data = none → extractRedditId url = "") ∧
    (findIgShortcode url.data = none → extractIgShortcode url = "") := by
  refine ⟨?_, ?_, ?_, ?_, ?_, ?_⟩
  · rcases h with h | h | h <;> subst h <;> rfl
  · rcases h with h | h | h <;> subst h <;> rfl
  · rcases h with h | h | h <;> subst h <;> rfl
  · intro hn
    unfold extractTweetId
    rw [hn]
  · intro hn
    unfold extractRedditId
    rw [hn]
  · intro hn
    unfold extractIgShortcode
    rw [hn]

/-- Claim C9, witness: a URL matching no platform pattern still executes,
with the empty string as extracted id. -/
theorem agents_execute_total_witness :
    (("comment" : String) = "comment" ∨ ("comment" : String) = "reply" ∨
      ("comment" : String) = "repost") ∧
    (execOk (TwitterAgent.execute 0 ("comment") ("https://example.com/nope")
        ("hi") none) = true ∧
    execOk (RedditAgent.execute 0 ("comment") ("https://example.com/nope")
        ("hi") none) = true ∧
    execOk (InstagramAgent.execute 0 ("comment") ("https://example.com/nope")
        ("hi") none) = true ∧
    (findTweetId ("https://example.com/nope" : String).data = none →
      extractTweetId ("https://example.com/nope") = "") ∧
    (findRedditId ("https://example.com/nope" : String).data = none →
      extractRedditId ("https://example.com/nope") = "") ∧
    (findIgShortcode ("https://example.com/nope" : String).data = none →
      extractIgShortcode ("https://example.com/nope") = "")) :=
  ⟨Or.inl rfl,
    agents_execute_total 0 ("comment") ("https://example.com/nope") ("hi") none (Or.inl rfl)⟩

/-- Reading the digit list of `n` back yields `n`, given enough fuel. -/
theorem natDigitsRevAux_spec : ∀ (fuel n : Nat), n < fuel →
    ofDigitsRev (natDigitsRevAux fuel n) = n := by
  intro fuel
  induction fuel with
  | zero => intro n h; omega
  | succ f ih =>
      intro n h
      rw [natDigitsRevAux]
      by_cases h10 : n < 10
      · rw [if_pos h10]
        simp [ofDigitsRev]
      · rw [if_neg h10]
        have hlt : n / 10 < f := by
          have h1 : n / 10 < n := Nat.div_lt_self (by omega) (by omega)
          omega
        simp only [ofDigitsRev]
        rw [ih (n / 10) hlt]
        exact Nat.mod_add_div n 10

/-- Every entry of the digit list is a decimal digit. -/
theorem natDigitsRevAux_lt10 : ∀ (fuel n d : Nat), d ∈ natDigitsRevAux fuel n → d < 10 := by
  intro fuel
  induction fuel with
  | zero => intro n d h; simp [natDigitsRevAux] at h
  | succ f ih =>
      intro n d h
      rw [natDigitsRevAux] at h
      by_cases h10 : n < 10
      · rw [if_pos h10] at h
        simp only [List.mem_singleton] at h
        omega
      · rw [if_neg h10] at h
        rcases List.mem_cons.mp h with h1 | h2
        · subst h1
          exact Nat.mod_lt _ (by omega)
        · exact ih _ _ h2

/-- The digit list of a number is never empty. -/
theorem natDigitsRev_ne_nil (n : Nat) : natDigitsRev n ≠ [] := by
  unfold natDigitsRev natDigitsRevAux
  by_cases h10 : n < 10
  · rw [if_pos h10]
    simp
  · rw [if_neg h10]
    simp

/-- `digitChar` is injective on decimal digit values. -/
theorem digitChar_inj {d1 d2 : Nat} (h1 : d1 < 10) (h2 : d2 < 10)
    (h : digitChar d1 = digitChar d2) : d1 = d2 := by
  interval_cases d1 <;> interval_cases d2 <;> simp_all [digitChar]

/-- `digitChar` always produces a digit character. -/
theorem digitChar_isDigit (d : Nat) : (digitChar d).isDigit = true := by
  unfold digitChar
  split <;> decide

/-- Mapping `digitChar` over digit lists is injective. -/
theorem map_digitChar_inj : ∀ (l1 l2 : List Nat), (∀ d ∈ l1, d < 10) → (∀ d ∈ l2, d < 10) →
    l1.map digitChar = l2.map digitChar → l1 = l2 := by
  intro l1
  induction l1 with
  | nil =>
      intro l2 _ _ h
      cases l2 with
      | nil => rfl
      | cons b bs => simp at h
  | cons a as ih =>
      intro l2 h1 h2 h
      cases l2 with
      | nil => simp at h
      | cons b bs =>
          simp only [List.map_cons, List.cons.injEq] at h
          have ha := h1 a (List.mem_cons_self _ _)
          have hb := h2 b (List.mem_cons_self _ _)
          have hab := digitChar_inj ha hb h.1
          rw [hab, ih bs (fun d hd => h1 d (List.mem_cons_of_mem _ hd))
            (fun d hd => h2 d (List.mem_cons_of_mem _ hd)) h.2]

/-- Two strings with equal character lists are equal. -/
theorem str_ext (x y : String) (h : x.data = y.data) : x = y := by
  cases x
  cases y
  exact congrArg String.mk h

/-- String concatenation concatenates the character lists. -/
theorem str_data_append (x y : String) : (x ++ y).data = x.data ++ y.data := by
  cases x
  cases y
  rfl

/-- The decimal rendering is injective: distinct numbers render differently. -/
theorem natRepr_inj {m n : Nat} (h : natRepr m = natRepr n) : m = n := by
  unfold natRepr at h
  have hl : ((natDigitsRev m).map digitChar).reverse =
      ((natDigitsRev n).map digitChar).reverse := congrArg String.data h
  have hm : (natDigitsRev m).map digitChar = (natDigitsRev n).map digitChar :=
    List.reverse_injective hl
  have hdig := map_digitChar_inj _ _
    (fun d hd => natDigitsRevAux_lt10 _ _ _ hd)
    (fun d hd => natDigitsRevAux_lt10 _ _ _ hd) hm
  have hval := congrArg ofDigitsRev hdig
  rwa [natDigitsRevAux_spec (m + 1) m (Nat.lt_succ_self m),
    natDigitsRevAux_spec (n + 1) n (Nat.lt_succ_self n)] at hval

/-- Every character of a decimal rendering is a digit. -/
theorem natRepr_isDigit (n : Nat) : ∀ c ∈ (natRepr n).data, c.isDigit = true := by
  intro c hc
  have hd : (natRepr n).data = ((natDigitsRev n).map digitChar).reverse := rfl
  rw [hd, List.mem_reverse] at hc
  rcases List.mem_map.mp hc with ⟨d, _, hdc⟩
  rw [← hdc]
  exact digitChar_isDigit d

/-- A decimal rendering is never the empty character list. -/
theorem natRepr_data_ne_nil (n : Nat) : (natRepr n).data ≠ [] := by
  intro hc
  apply natDigitsRev_ne_nil n
  have hd : (natRepr n).data = ((natDigitsRev n).map digitChar).reverse := rfl
  rw [hd] at hc
  rw [List.reverse_eq_nil_iff, List.map_eq_nil_iff] at hc
  exact hc

/-- An id built as a prefix followed by a decimal rendering is nonempty. -/
theorem pre_natRepr_ne_empty (pre : String) (n : Nat) : pre ++ natRepr n ≠ "" := by
  intro h
  have hd := congrArg String.data h
  rw [str_data_append] at hd
  rcases List.append_eq_nil.mp hd with ⟨_, h2⟩
  exact natRepr_data_ne_nil n h2

/-- Splitting a concatenation of a digit-free part and an all-digit part is
unique: equal concatenations have equal parts. -/
theorem append_digit_split : ∀ (p1 p2 d1 d2 : List Char),
    (∀ c ∈ p1, c.isDigit = false) → (∀ c ∈ p2, c.isDigit = false) →
    (∀ c ∈ d1, c.isDigit = true) → (∀ c ∈ d2, c.isDigit = true) →
    p1 ++ d1 = p2 ++ d2 → p1 = p2 ∧ d1 = d2 := by
  intro p1
  induction p1 with
  | nil =>
      intro p2 d1 d2 _ hp2 hd1 _ h
      cases p2 with
      | nil =>
          simp only [List.nil_append] at h
          exact ⟨rfl, h⟩
      | cons b bs =>
          simp only [List.nil_append] at h
          have hb1 : b ∈ d1 := by
            rw [h]
            exact List.mem_cons_self _ _
          have ht := hd1 b hb1
          have hf := hp2 b (List.mem_cons_self _ _)
          rw [ht] at hf
          cases hf
  | cons a as ih =>
      intro p2 d1 d2 hp1 hp2 hd1 hd2 h
      cases p2 with
      | nil =>
          simp only [List.nil_append] at h
          have ha2 : a ∈ d2 := by
            rw [← h]
            exact List.mem_cons_self _ _
          have ht := hd2 a ha2
          have hf := hp1 a (List.mem_cons_self _ _)
          rw [ht] at hf
          cases hf
      | cons b bs =>
          simp only [List.cons_append, List.cons.injEq] at h
          obtain ⟨hab, h2⟩ := h
          subst hab
          obtain ⟨he1, he2⟩ := ih bs d1 d2
            (fun c hc => hp1 c (List.mem_cons_of_mem _ hc))
            (fun c hc => hp2 c (List.mem_cons_of_mem _ hc)) hd1 hd2 h2
          exact ⟨by rw [he1], he2⟩

/-- Every id an agent resolves with is a digit-free, action-specific prefix
followed by the decimal rendering of the call's `Date.now()` value. -/
theorem agentExecute_ok_id (p : Platform) (now : Nat) (a u c : String) (pc : Option String)
    (res : ExecResult)
    (h : agentExecute p now a u c pc = .ok res) :
    ∃ pre : String, (∀ ch ∈ pre.data, ch.isDigit = false) ∧ pre ++ natRepr now = res.id := by
  cases p <;>
    simp only [agentExecute, TwitterAgent.execute, RedditAgent.execute,
      InstagramAgent.execute] at h <;>
    split_ifs at h <;>
    injection h with h' <;>
    (subst h'
     refine ⟨_, ?_, rfl⟩
     decide)

/-- A successful bridge response's platform_post_id is the adapter id: a
digit-free prefix followed by the rendered timestamp. -/
theorem bridgeExecute_success_id (now : Nat) (uuid : String) (req : ExecuteRequest)
    (pid pf a : String) (res : ExecResult)
    (h : (bridgeExecute now uuid req).1 = .success pid pf a res) :
    ∃ pre : String, (∀ ch ∈ pre.data, ch.isDigit = false) ∧ pre ++ natRepr now = pid := by
  unfold bridgeExecute at h
  split at h
  · simp at h
  · rename_i p1 hp1
    split at h
    · rename_i r0 hq
      simp at h
      obtain ⟨h1, _, _, _⟩ := h
      obtain ⟨pre, hpre, hid⟩ :=
        agentExecute_ok_id p1 now req.action req.post_url req.content
          req.parent_comment_id r0 hq
      refine ⟨pre, hpre, ?_⟩
      rw [← h1, jsOrString, if_neg ?_]
      · exact hid
      · rw [← hid]
        exact pre_natRepr_ne_empty pre now
    · rename_i e hq
      simp at h

/-- Claim C6 (amended): two successful execute calls whose `Date.now()`
timestamps differ return distinct platform_post_id values — the Gateway
never reuses or deduplicates an id across distinct milliseconds. -/
theorem execute_ids_distinct_for_distinct_times (now1 now2 : Nat) (u1 u2 : String)
    (r1 r2 : ExecuteRequest) (id1 id2 pf1 pf2 a1 a2 : String) (res1 res2 : ExecResult)
    (hne : now1 ≠ now2)
    (h1 : (bridgeExecute now1 u1 r1).1 = .success id1 pf1 a1 res1)
    (h2 : (bridgeExecute now2 u2 r2).1 = .success id2 pf2 a2 res2) :
    id1 ≠ id2 := by
  obtain ⟨p1, hp1, hi1⟩ := bridgeExecute_success_id now1 u1 r1 id1 pf1 a1 res1 h1
  obtain ⟨p2, hp2, hi2⟩ := bridgeExecute_success_id now2 u2 r2 id2 pf2 a2 res2 h2
  intro he
  rw [← hi1, ← hi2] at he
  have hdata : p1.data ++ (natRepr now1).data = p2.data ++ (natRepr now2).data := by
    have hd := congrArg String.data he
    rwa [str_data_append, str_data_append] at hd
  obtain ⟨_, hdd⟩ := append_digit_split p1.data p2.data (natRepr now1).data
    (natRepr now2).data hp1 hp2 (natRepr_isDigit now1) (natRepr_isDigit now2) hdata
  exact hne (natRepr_inj (str_ext _ _ hdd))

/-- Claim C6, witness: calls at milliseconds 1 and 2 return distinct ids. -/
theorem execute_ids_distinct_witness :
    ((1 : Nat) ≠ 2) ∧
    (bridgeExecute 1 ("uA") ⟨"comment", "twitter", "https://x.com/a/status/7", "hi", none⟩).1 =
      .success (("tw_reply_") ++ natRepr 1) ("twitter") ("comment")
        ⟨("tw_reply_") ++ natRepr 1, ("7"), ("reply"), ("hi"), ("simulated")⟩ ∧
    (bridgeExecute 2 ("uB") ⟨"comment", "twitter", "https://x.com/a/status/7", "hi", none⟩).1 =
      .success (("tw_reply_") ++ natRepr 2) ("twitter") ("comment")
        ⟨("tw_reply_") ++ natRepr 2, ("7"), ("reply"), ("hi"), ("simulated")⟩ ∧
    (("tw_reply_") ++ natRepr 1) ≠ (("tw_reply_") ++ natRepr 2) :=
  ⟨by decide, by decide, by decide,
    execute_ids_distinct_for_distinct_times 1 2 ("uA") ("uB")
      ⟨"comment", "twitter", "https://x.com/a/status/7", "hi", none⟩
      ⟨"comment", "twitter", "https://x.com/a/status/7", "hi", none⟩
      (("tw_reply_") ++ natRepr 1) (("tw_reply_") ++ natRepr 2)
      ("twitter") ("twitter") ("comment") ("comment")
      ⟨("tw_reply_") ++ natRepr 1, ("7"), ("reply"), ("hi"), ("simulated")⟩
      ⟨("tw_reply_") ++ natRepr 2, ("7"), ("reply"), ("hi"), ("simulated")⟩
      (by decide) (by decide) (by decide)⟩

/-- Claim C6, counterexample to the claim as stated: two successful execute
calls in the same millisecond (same `Date.now()` value, here 1000) for
different target posts both return platform_post_id tw_reply_1000 — the
returned ids are not always distinct. -/
theorem execute_same_ms_collision_counterexample :
    (bridgeExecute 1000 ("uuidA")
        ⟨"comment", "twitter", "https://x.com/a/status/42", "hello", none⟩).1 =
      .success (("tw_reply_") ++ natRepr 1000) ("twitter") ("comment")
        ⟨("tw_reply_") ++ natRepr 1000, ("42"), ("reply"), ("hello"), ("simulated")⟩ ∧
    (bridgeExecute 1000 ("uuidB")
        ⟨"comment", "twitter", "https://x.com/b/status/99", "again", none⟩).1 =
      .success (("tw_reply_") ++ natRepr 1000) ("twitter") ("comment")
        ⟨("tw_reply_") ++ natRepr 1000, ("99"), ("reply"), ("again"), ("simulated")⟩ := by
  constructor <;> decide
